import Mathlib

/-!
Shallow embedding of the fireslurm repository core: the configuration model
with its construction-time validation (src/src/fireslurm/config.py and
src/src/fireslurm/validation.py), the job-submission protocol
(src/src/fireslurm/batch.py, src/src/fireslurm/slurm.py), and the run
orchestrator (src/fireslurm/run.py, src/run.py, src/fireslurm/utils.py).

Filesystem-dependent predicates are modelled over an explicit stat view,
external processes over explicit exit codes and captured stdout, and
process-global mutable state (environment variables, terminal interrupt key,
signal mask) over explicit state records and event traces.
-/

namespace Fireslurm

/-! ## Filesystem stat view for the validation layer -/

/-- The stat information the validation predicates inspect for one path:
entry type and access bits (as reported by os.access). -/
structure FileStat where
  isDir : Bool
  isFile : Bool
  readable : Bool
  writable : Bool
  executable : Bool
deriving DecidableEq, Repr

/-- A read-only stat view of the filesystem: a finite association of paths
(rendered as strings) to stat results; a missing path does not exist. -/
structure FS where
  entries : List (String × FileStat)
deriving Repr

/-- Look a path up in the stat view. -/
def FS.stat (fs : FS) (p : String) : Option FileStat :=
  (fs.entries.find? (fun e => e.1 == p)).map (fun e => e.2)

/-- The empty filesystem: no path exists. -/
def FS.empty : FS := ⟨[]⟩

/-- Join a directory path and an entry name, as pathlib `/` does. -/
def pjoin (dir name : String) : String := dir ++ "/" ++ name

/-! ## Validation layer (src/src/fireslurm/validation.py) -/

/-- validation.path_is_readable_dir: exists, is a directory, and R_OK. -/
def path_is_readable_dir (fs : FS) (p : String) : Bool :=
  match fs.stat p with
  | some st => st.isDir && st.readable
  | none => false

/-- validation.path_is_writable_dir: exists, is a directory, and W_OK. -/
def path_is_writable_dir (fs : FS) (p : String) : Bool :=
  match fs.stat p with
  | some st => st.isDir && st.writable
  | none => false

/-- validation.path_is_readable_file: exists, is a regular file, and R_OK. -/
def path_is_readable_file (fs : FS) (p : String) : Bool :=
  match fs.stat p with
  | some st => st.isFile && st.readable
  | none => false

/-- validation.path_is_executable_file: exists, is a regular file, R_OK and
X_OK. -/
def path_is_executable_file (fs : FS) (p : String) : Bool :=
  match fs.stat p with
  | some st => st.isFile && (st.readable && st.executable)
  | none => false

/-! ## Path suffix (pathlib.PurePath.suffix), used by validate_sim_img -/

/-- Split a character list at every occurrence of a separator character,
keeping empty segments, as str.split does for a single-character
separator. -/
def splitOnCharAux (c : Char) : List Char → List Char → List (List Char)
  | [], acc => [acc.reverse]
  | x :: xs, acc =>
      if x = c then acc.reverse :: splitOnCharAux c xs []
      else splitOnCharAux c xs (x :: acc)

/-- Split a string at a separator character. -/
def splitOnChar (c : Char) (s : String) : List (List Char) :=
  splitOnCharAux c s.toList []

/-- The final path component, as pathlib .name does for our joined paths. -/
def fileName (p : String) : String :=
  String.mk ((splitOnChar '/' p).getLastD [])

/-- Index of the last dot in a string, if any. -/
def lastDotIdx (s : String) : Option Nat :=
  (List.range s.toList.length).foldl
    (fun acc i => if s.toList.getD i ' ' = '.' then some i else acc) none

/-- pathlib.PurePath.suffix: the extension from the last dot of the final
component, empty when the dot is leading, trailing or absent. -/
def pathSuffix (p : String) : String :=
  let n := fileName p
  match lastDotIdx n with
  | none => ""
  | some i =>
      if 0 < i && i < n.toList.length - 1 then String.mk (n.toList.drop i) else ""

/-! ## Configuration model (src/src/fireslurm/config.py) -/

/-- The NIL UUID default for a run identity; the 128-bit UUID value is
modelled as a natural number, the NIL UUID being 0. -/
def DEFAULT_FIRESLURM_ID : Nat := 0

/-- Field set of the frozen dataclass FireSlurmConfig. -/
structure FireSlurmFields where
  overlay_path : String
  sim_config : String
  sim_img : String
  sim_prog : String
  log_dir : String
  partitions : List String
  nodelist : List String
  verbosity : Nat
  dry_run : Bool
  _run_id : Nat
deriving DecidableEq, Repr

/-- FireSlurmConfig.partitions_flag: comma-join the partitions. -/
def partitions_flag (c : FireSlurmFields) : String :=
  String.intercalate "," c.partitions

/-- FireSlurmConfig.nodelist_flag: comma-join the node list. -/
def nodelist_flag (c : FireSlurmFields) : String :=
  String.intercalate "," c.nodelist

/-- FireSlurmConfig.verbose: any verbosity at all. -/
def verbose (c : FireSlurmFields) : Bool := c.verbosity > 0

/-- FireSlurmConfig.verbose_flag: "-" followed by one "v" per verbosity
level, empty when verbosity is 0. -/
def verbose_flag (c : FireSlurmFields) : String :=
  if c.verbosity > 0 then "-" ++ String.mk (List.replicate c.verbosity 'v') else ""

/-- FireSlurmConfig.validate_sim_config: the simulation-config directory,
its xilinx_vcu118 subdirectory, the driver executable and the bitstream. -/
def validate_sim_config (fs : FS) (sim_config : String) : Bool :=
  path_is_readable_dir fs sim_config &&
  path_is_readable_dir fs (pjoin sim_config "xilinx_vcu118") &&
  path_is_executable_file fs (pjoin sim_config "FireSim-xilinx_vcu118") &&
  path_is_readable_file fs (pjoin (pjoin sim_config "xilinx_vcu118") "firesim.bit")

/-- FireSlurmConfig.validate_overlay: a readable directory. -/
def validate_overlay (fs : FS) (overlay_path : String) : Bool :=
  path_is_readable_dir fs overlay_path

/-- FireSlurmConfig.validate_sim_img: a readable file with the ".img"
suffix. -/
def validate_sim_img (fs : FS) (sim_img : String) : Bool :=
  path_is_readable_file fs sim_img && pathSuffix sim_img == ".img"

/-- FireSlurmConfig.validate_sim_prog: a readable, executable file. -/
def validate_sim_prog (fs : FS) (sim_prog : String) : Bool :=
  path_is_readable_file fs sim_prog && path_is_executable_file fs sim_prog

/-- FireSlurmConfig.validate_log_dir: a readable and writable directory. -/
def validate_log_dir (fs : FS) (log_dir : String) : Bool :=
  path_is_readable_dir fs log_dir && path_is_writable_dir fs log_dir

/-- FireSlurmConfig.__post_init__: the asserts run in source order and the
first failing one aborts construction with its message. -/
def mkFireSlurmConfig (fs : FS) (c : FireSlurmFields) :
    Except String FireSlurmFields :=
  if !validate_sim_config fs c.sim_config then
    .error "Simulator config directory invalid"
  else if !validate_overlay fs c.overlay_path then
    .error "Overlay directory invalid"
  else if !validate_sim_img fs c.sim_img then
    .error "Simulation disk image invalid"
  else if !validate_sim_prog fs c.sim_prog then
    .error "Simulation program (kernel) invalid"
  else if !validate_log_dir fs c.log_dir then
    .error "Log directory is invalid"
  else .ok c

/-- Field set shared by the SlurmJobConfig specializations RunConfig and
BatchConfig: the base fields plus run name, optional in-simulation command,
print-start cycle, and the sbatch stdout/stderr capture paths. -/
structure SlurmJobFields where
  base : FireSlurmFields
  run_name : String
  cmd : Option String
  print_start : Int
  slurm_output : String
  slurm_error : String
deriving DecidableEq, Repr

/-- SlurmJobConfig.is_interactive: no command, or the exactly-empty command
string. -/
def is_interactive (c : SlurmJobFields) : Bool :=
  match c.cmd with
  | none => true
  | some s => s == ""

/-- Characters admitted by the run-name pattern [a-zA-Z0-9.\-_]. -/
def isRunNameChar (ch : Char) : Bool :=
  ch.isAlpha || ch.isDigit || ch == '.' || ch == '-' || ch == '_'

/-- SlurmJobConfig.validate_run_name: non-empty, without os.pathsep (":" on
POSIX), and fully matching [a-zA-Z0-9.\-_]+. -/
def validate_run_name (run_name : String) : Bool :=
  if run_name == "" || run_name.toList.contains ':' then false
  else run_name.toList.all isRunNameChar

/-- Construction of a RunConfig value. RunConfig defines no __post_init__
of its own, so the dataclass machinery runs the single most-derived
__post_init__, which is SlurmJobConfig.__post_init__: it asserts only
validate_run_name and, not chaining to super(), never re-runs the base
path validation. -/
def mkRunConfig (c : SlurmJobFields) : Except String SlurmJobFields :=
  if validate_run_name c.run_name then .ok c
  else .error "Run name is invalid"

/-- Construction of a BatchConfig value. BatchConfig.__post_init__ replaces
SlurmJobConfig.__post_init__ without chaining to super(), so the only check
that runs is the non-interactive assert: neither the run name nor any path
field is validated here. -/
def mkBatchConfig (c : SlurmJobFields) : Except String SlurmJobFields :=
  if is_interactive c then .error "Batch runs must have a command"
  else .ok c

/-- BatchConfig.from_run_config: guard on a present, non-empty command,
then construct the BatchConfig from the same field values. -/
def from_run_config (c : SlurmJobFields) : Except String SlurmJobFields :=
  if c.cmd ≠ none ∧ c.cmd ≠ some "" then mkBatchConfig c
  else .error "must provide a cmd!"

/-- RunConfig.from_batch_config: construct a RunConfig from the same field
values, which re-runs the run-name assert of SlurmJobConfig.__post_init__. -/
def from_batch_config (c : SlurmJobFields) : Except String SlurmJobFields :=
  mkRunConfig c

/-! ## Job submission protocol (src/src/fireslurm/batch.py, slurm.py) -/

/-- JobInfo (src/src/fireslurm/slurm.py): Slurm job id with sentinel -1,
paired with the originating run identity, defaulting to the NIL UUID. -/
structure JobInfo where
  slurm_job_id : Int := -1
  run_id : Nat := DEFAULT_FIRESLURM_ID
deriving DecidableEq, Repr

/-- Errors of the submission path: a non-zero exit of the submission tool
(subprocess.CalledProcessError from check=True), and an unparsable job id.
In the Python source the latter surfaces as the TypeError raised by
subscripting the failed regex match at job_match[1]; the design taxonomy
names that failure UnparsableJobId. -/
inductive BErr where
  | submissionFailed (code : Int)
  | unparsableJobId
deriving DecidableEq, Repr

/-- Observable outcome of running the sbatch child process once: its exit
code and captured stdout. -/
structure SbatchOutcome where
  exitCode : Int
  stdout : String
deriving DecidableEq, Repr

/-- The sbatch command line assembled by submit_slurm_job: fixed flags,
then the verbosity flag when verbose, then --test-only when dry-run, and
the job script last. -/
def build_sbatch_cmd (c : SlurmJobFields) (dry_run : Bool) (jobFile : String) :
    List String :=
  ["sbatch",
   "--partition", String.intercalate "," c.base.partitions,
   "--nodelist", String.intercalate "," c.base.nodelist,
   "--job-name", c.run_name,
   "--output", c.slurm_output,
   "--error", c.slurm_error,
   "--exclusive"]
  ++ (if verbose c.base then [verbose_flag c.base] else [])
  ++ (if dry_run then ["--test-only"] else [])
  ++ [jobFile]

/-- Decimal value of an all-digit character list, as int() applied to the
matched digits group. -/
def digitsToNat (ds : List Char) : Nat :=
  ds.foldl (fun n c => n * 10 + (c.toNat - '0'.toNat)) 0

/-- The fixed stdout pattern of a successful submission, as matched by
re.match with the pattern anchored at the start and at the end of the
string; the trailing dollar of the pattern also accepts one final newline,
so the match succeeds exactly on "Submitted batch job <digits>" with an
optional single trailing newline, and the digits group converted by int()
is the job id. -/
def matchSubmittedBatchJob (s : String) : Option Nat :=
  let cs := s.toList
  let cs := if cs.getLast? = some '\n' then cs.dropLast else cs
  let pre := "Submitted batch job ".toList
  if pre.isPrefixOf cs then
    let ds := cs.drop pre.length
    if ds.isEmpty then none
    else if ds.all Char.isDigit then some (digitsToNat ds)
    else none
  else none

/-- One external-process event: the exact command line handed to the
operating system. -/
inductive ExecEv where
  | exec (cmd : List String)
deriving DecidableEq, Repr

/-- batch.submit_slurm_job, as a function of the configuration, the job
script path, the global dry-run flag (utils.dry_run) and the observed
outcome of the sbatch child process. The inner run_cmd call that is guarded
by the dry-run flag only logs when dry-run is set, so the one real
execution is the unconditional subprocess.run with check=True; a non-zero
exit raises there. On a zero exit, a dry run skips job-id extraction
entirely and returns the all-default JobInfo, while a real run parses the
stdout pattern and pairs the parsed id with the configuration run id,
failing when the pattern does not match. -/
def submit_slurm_job (c : SlurmJobFields) (jobFile : String) (dry_run : Bool)
    (out : SbatchOutcome) : List ExecEv × Except BErr JobInfo :=
  let cmd := build_sbatch_cmd c dry_run jobFile
  let evs := [ExecEv.exec cmd]
  if out.exitCode ≠ 0 then
    (evs, .error (.submissionFailed out.exitCode))
  else if dry_run then
    (evs, .ok {})
  else
    match matchSubmittedBatchJob out.stdout with
    | some n => (evs, .ok { slurm_job_id := (n : Int), run_id := c.base._run_id })
    | none => (evs, .error .unparsableJobId)

/-! ## Run orchestrator (src/fireslurm/run.py and src/run.py) -/

/-- Errors raised along the orchestration path. -/
inductive RErr where
  | missingBitstream (p : String)
  | externalToolFailed (code : Int)
  | copyFailed
  | assertionFailed (msg : String)
  | simulationFailed (code : Int)
  | alreadyExists (p : String)
deriving DecidableEq, Repr

/-- Events of the orchestration path, in the order they are performed:
signal-mask changes, external commands, the scoped mount of the disk image,
the overlay copy, the settle sleep, and the Launching and Restoring
mutations of process-global state. -/
inductive REv where
  | maskSigint
  | unmaskSigint
  | exec (cmd : List String)
  | mkdirMountpoint
  | mount (img mnt : String)
  | copyTree (src dst : String)
  | unmount (mnt : String)
  | sleepSettle (secs : Nat)
  | remapKey
  | extendLd
  | simWait
  | restoreLd
  | restoreKey
deriving DecidableEq, Repr

/-- The external observations an orchestrator run depends on: the stat view
of the filesystem, the global dry-run flag, the exit codes of the two
privileged reconfiguration tools, and whether the recursive overlay copy
raises. -/
structure RunWorld where
  fs : FS
  dry_run : Bool
  flashExit : Int
  pcieExit : Int
  copyFails : Bool
deriving Repr

/-- run.flash_fpga (src/fireslurm/run.py): first an existence check on the
bitstream raising FileNotFoundError, then the flash command and the PCIe
permission command, each run with check=True and each skipped when dry-run
is set. -/
def flash_fpga (w : RunWorld) (sim_config : String) : List REv × Except RErr Unit :=
  let bitstream := pjoin (pjoin sim_config "xilinx_vcu118") "firesim.bit"
  if (w.fs.stat bitstream).isNone then
    ([], .error (.missingBitstream bitstream))
  else
    let flashCmd := ["sudo", "firesim-xvsecctl-flash-fpga", "0x01", "0x00", "0x1",
                     bitstream]
    let pcieCmd := ["sudo", "firesim-change-pcie-perms", "0000:01:00:0"]
    if w.dry_run then ([], .ok ())
    else if w.flashExit ≠ 0 then
      ([.exec flashCmd], .error (.externalToolFailed w.flashExit))
    else if w.pcieExit ≠ 0 then
      ([.exec flashCmd, .exec pcieCmd], .error (.externalToolFailed w.pcieExit))
    else ([.exec flashCmd, .exec pcieCmd], .ok ())

/-- run.overlay_disk_image (src/fireslurm/run.py): make the well-known
mount point, then inside the scoped mount copy the overlay tree onto it.
utils.mount_img is not present under src/.
Modelled from the spec: utils.mount_img is a scoped-resource acquisition
that mounts the image on entry and unconditionally releases the mount on
every exit path of its with-block, including when the body raises; the
event list therefore records the unmount on both branches, and a copy
failure propagates only after the unmount. -/
def overlay_disk_image (w : RunWorld) (overlay_path sim_img : String) :
    List REv × Except RErr Unit :=
  let enter := [REv.mkdirMountpoint, REv.mount sim_img "mountpoint"]
  if w.copyFails then
    (enter ++ [REv.unmount "mountpoint"], .error .copyFailed)
  else
    (enter ++ [REv.copyTree overlay_path "mountpoint", REv.unmount "mountpoint"],
     .ok ())

/-- run.infrasetup (src/fireslurm/run.py): flash, overlay and the settle
sleep, all inside a with-block on utils.block_sigint. utils.block_sigint is
not present under src/.
Modelled from the spec: utils.block_sigint masks the interrupt signal on
entry and removes the mask on every exit of its with-block, so the unmask
event is appended on the error branches as well before the inner error is
re-propagated. -/
def infrasetup (w : RunWorld) (sim_config overlay_path sim_img : String) :
    List REv × Except RErr Unit :=
  match flash_fpga w sim_config with
  | (fev, .error e) => ([.maskSigint] ++ fev ++ [.unmaskSigint], .error e)
  | (fev, .ok _) =>
    match overlay_disk_image w overlay_path sim_img with
    | (oev, .error e) => ([.maskSigint] ++ fev ++ oev ++ [.unmaskSigint], .error e)
    | (oev, .ok _) =>
      ([.maskSigint] ++ fev ++ oev ++ [.sleepSettle 1, .unmaskSigint], .ok ())

/-- run.flash_fpga of the standalone snapshot (src/run.py): no bitstream
existence check; both privileged commands go through utils.run_cmd, which
only logs when dry-run is set and otherwise runs with check=True. -/
def flash_fpga_main (w : RunWorld) (sim_config : String) :
    List REv × Except RErr Unit :=
  let flashCmd := ["sudo", "/usr/local/bin/firesim-xvsecctl-flash-fpga",
                   "0x01", "0x00", "0x1",
                   sim_config ++ "/xilinx_vcu118/firesim.bit"]
  let pcieCmd := ["sudo", "/usr/local/bin/firesim-change-pcie-perms",
                  "0000:01:00:0"]
  if w.dry_run then ([], .ok ())
  else if w.flashExit ≠ 0 then
    ([.exec flashCmd], .error (.externalToolFailed w.flashExit))
  else if w.pcieExit ≠ 0 then
    ([.exec flashCmd, .exec pcieCmd], .error (.externalToolFailed w.pcieExit))
  else ([.exec flashCmd, .exec pcieCmd], .ok ())

/-- run.overlay_disk_image of the standalone snapshot (src/run.py): same as
the packaged one, with a leading assert that the overlay tree already holds
a firesim.sh script; the scoped mount is again modelled from the spec. -/
def overlay_disk_image_main (w : RunWorld) (overlay_path sim_img : String) :
    List REv × Except RErr Unit :=
  if (w.fs.stat (pjoin overlay_path "firesim.sh")).isNone then
    ([], .error (.assertionFailed
      "Firesim.sh script must be made before overlaying disk image"))
  else
    let enter := [REv.mkdirMountpoint, REv.mount sim_img "mountpoint"]
    if w.copyFails then
      (enter ++ [REv.unmount "mountpoint"], .error .copyFailed)
    else
      (enter ++ [REv.copyTree overlay_path "mountpoint",
                 REv.unmount "mountpoint"], .ok ())

/-- The critical section of run.main in the standalone snapshot
(src/run.py lines 435-451): signal.signal(SIGINT, SIG_IGN) is a plain
statement before flashing, and the matching signal.signal(SIGINT, SIG_DFL)
is a plain statement after the settle sleep, with no try/finally and no
with-block, so an error raised by flashing or overlaying propagates without
reaching the unmask statement. -/
def main_critical_section (w : RunWorld) (sim_config overlay_path sim_img : String) :
    List REv × Except RErr Unit :=
  match flash_fpga_main w sim_config with
  | (fev, .error e) => ([.maskSigint] ++ fev, .error e)
  | (fev, .ok _) =>
    match overlay_disk_image_main w overlay_path sim_img with
    | (oev, .error e) => ([.maskSigint] ++ fev ++ oev, .error e)
    | (oev, .ok _) =>
      ([.maskSigint] ++ fev ++ oev ++ [.sleepSettle 1, .unmaskSigint], .ok ())

/-! ## Launching, Streaming and Restoring (run.run_simulation) -/

/-- The process-global mutable state the Launching phase touches: the
terminal interrupt key and the LD_LIBRARY_PATH environment variable. -/
structure ProcState where
  sigintKey : String
  ldLibraryPath : String
deriving DecidableEq, Repr

/-- The FireSim-specific interrupt key the orchestrator remaps to
(stty intr with Control-right-bracket). -/
def firesimIntrKey : String := "^]"

/-- utils.extend_path (src/fireslurm/utils.py) applied to one variable
value: returns the captured old value and the new value, the joined
additions followed by the separator followed by the old value. -/
def extend_path (old : String) (vals : List String) (sep : String) :
    String × String :=
  (old, String.intercalate sep vals ++ sep ++ old)

/-- run.run_simulation (src/fireslurm/run.py lines 350-419), as a function
of the simulation-config path, the exit code the simulation process ends
with, and the process-global state on entry; returns the final state, the
ordered event trace, and the outcome. utils.change_sigint_key is not
present under src/.
Modelled from the spec: utils.change_sigint_key is a scoped wrapper that
captures the old interrupt key on entry, remaps the key, and restores the
captured value on every exit of its with-block.
Inside that with-block the source extends LD_LIBRARY_PATH via
utils.extend_path, streams the pseudo-terminal output, waits for the
process, and raises CalledProcessError when the exit code is non-zero; the
statement restoring LD_LIBRARY_PATH to the captured value is plain code
after the inner with-block, so the raise skips it and only the scoped key
restoration runs before the error propagates. -/
def run_simulation (sim_config : String) (simExit : Int) (st : ProcState) :
    ProcState × List REv × Except RErr Unit :=
  let oldKey := st.sigintKey
  let st1 : ProcState := { st with sigintKey := firesimIntrKey }
  let ep := extend_path st1.ldLibraryPath [sim_config] ":"
  let old_ld := ep.1
  let st2 : ProcState := { st1 with ldLibraryPath := ep.2 }
  if simExit ≠ 0 then
    ({ st2 with sigintKey := oldKey },
     [.remapKey, .extendLd, .simWait, .restoreKey],
     .error (.simulationFailed simExit))
  else
    ({ st2 with ldLibraryPath := old_ld, sigintKey := oldKey },
     [.remapKey, .extendLd, .simWait, .restoreLd, .restoreKey],
     .ok ())

/-! ## Log rotation (run.update_log_files, identical in both snapshots) -/

/-- A directory entry of the mutable log-root view: a directory or a
symbolic link. -/
inductive FSEntry where
  | dir
  | symlink (target : String)
deriving DecidableEq, Repr

/-- A mutable view of the log root: paths to entries, absent paths do not
exist. -/
def LogFS : Type := String → Option FSEntry

/-- Create or replace an entry. -/
def LogFS.set (fs : LogFS) (p : String) (e : FSEntry) : LogFS :=
  fun q => if q = p then some e else fs q

/-- Remove an entry if present. -/
def LogFS.erase (fs : LogFS) (p : String) : LogFS :=
  fun q => if q = p then none else fs q

/-- The empty log root. -/
def LogFS.emptyFS : LogFS := fun _ => none

/-- run.update_log_files: ensure the log root exists, create the directory
named by the base name and the current timestamp (raising FileExistsError
when the composed name already exists), drop any existing latest alias
(absence swallowed), link latest at the new directory, and return
latest_log, the path of the alias. The timestamp is passed explicitly here
in the strftime rendering the source composes. A pre-existing directory
(rather than a symlink) at the latest path would make os.remove raise in
Python; that path shape never arises from this operation and is outside
the model. -/
def update_log_files (fs : LogFS) (log_dir log_name timestamp : String) :
    LogFS × Except RErr String :=
  let fs := if (fs log_dir).isNone then LogFS.set fs log_dir .dir else fs
  let composed := log_name ++ timestamp
  let current_run_log := pjoin log_dir composed
  if (fs current_run_log).isSome then
    (fs, .error (.alreadyExists current_run_log))
  else
    let fs := LogFS.set fs current_run_log .dir
    let latest_log := pjoin log_dir "latest"
    let fs := LogFS.erase fs latest_log
    let fs := LogFS.set fs latest_log (.symlink current_run_log)
    (fs, .ok latest_log)

/-! ## Concrete fixtures used by witnesses and counterexamples -/

/-- A concrete base field set; its paths do not exist in the empty
filesystem view. -/
def baseFields : FireSlurmFields :=
  { overlay_path := "/ov", sim_config := "/sc", sim_img := "/img/rootfs.img",
    sim_prog := "/sc/prog", log_dir := "/logs", partitions := ["fpga"],
    nodelist := ["node1"], verbosity := 0, dry_run := false, _run_id := 7 }

/-- A concrete job field set with a valid run name and a non-empty
command. -/
def jobFields : SlurmJobFields :=
  { base := baseFields, run_name := "bench-1", cmd := some "ls",
    print_start := 0, slurm_output := "slurm-log/out",
    slurm_error := "slurm-log/err" }

/-- The job field set with an invalid (empty) run name but a non-empty
command. -/
def badNameBatchFields : SlurmJobFields := { jobFields with run_name := "" }

/-- A zero-exit sbatch outcome whose stdout matches the submission
pattern. -/
def out4821 : SbatchOutcome := { exitCode := 0, stdout := "Submitted batch job 4821\n" }

/-- A zero-exit sbatch outcome whose stdout does not match the submission
pattern. -/
def outErrText : SbatchOutcome :=
  { exitCode := 0, stdout := "sbatch: error: Batch job submission failed" }

/-! ## Helper lemmas on traces and paths -/

lemma getLast?_append_last {α : Type} (l : List α) (a : α) :
    (l ++ [a]).getLast? = some a := List.getLast?_concat l

lemma getLast?_append_pair {α : Type} (l : List α) (a b : α) :
    (l ++ [a, b]).getLast? = some b := by
  rw [show [a, b] = [a] ++ [b] from rfl, ← List.append_assoc]
  exact List.getLast?_concat _

lemma string_ext {s t : String} (h : s.data = t.data) : s = t := by
  cases s
  cases t
  exact congrArg String.mk h

lemma pjoin_length (d n : String) : (pjoin d n).length = d.length + 1 + n.length := by
  have hslash : ("/" : String).length = 1 := rfl
  simp [pjoin, String.length_append, hslash]

lemma root_ne_pjoin (d n : String) : d ≠ pjoin d n := by
  intro h
  have h2 := congrArg String.length h
  rw [pjoin_length] at h2
  omega

lemma pjoin_right_inj {a b : String} (d : String) (h : a ≠ b) :
    pjoin d a ≠ pjoin d b := by
  intro he
  apply h
  have hd := congrArg String.data he
  simp only [pjoin, String.data_append, List.append_assoc] at hd
  exact string_ext (List.append_cancel_left (List.append_cancel_left hd))

/-! ## Claims about configuration construction and conversion -/

/-- C3 (amended): path validation is enforced only for the base
FireSlurmConfig, whose construction succeeds exactly when all five
validators hold and otherwise fails with the message of the first violated
field in the source's assert order — simulation-config directory, overlay
directory, disk image, program, log directory; RunConfig construction
checks only the run name and BatchConfig construction only command
non-emptiness. -/
theorem construction_validation_characterization (fs : FS)
    (b : FireSlurmFields) (c : SlurmJobFields) :
    (mkFireSlurmConfig fs b = .ok b ↔
      (validate_sim_config fs b.sim_config = true ∧
       validate_overlay fs b.overlay_path = true ∧
       validate_sim_img fs b.sim_img = true ∧
       validate_sim_prog fs b.sim_prog = true ∧
       validate_log_dir fs b.log_dir = true)) ∧
    (validate_sim_config fs b.sim_config = false →
       mkFireSlurmConfig fs b = .error "Simulator config directory invalid") ∧
    (validate_sim_config fs b.sim_config = true →
     validate_overlay fs b.overlay_path = false →
       mkFireSlurmConfig fs b = .error "Overlay directory invalid") ∧
    (validate_sim_config fs b.sim_config = true →
     validate_overlay fs b.overlay_path = true →
     validate_sim_img fs b.sim_img = false →
       mkFireSlurmConfig fs b = .error "Simulation disk image invalid") ∧
    (validate_sim_config fs b.sim_config = true →
     validate_overlay fs b.overlay_path = true →
     validate_sim_img fs b.sim_img = true →
     validate_sim_prog fs b.sim_prog = false →
       mkFireSlurmConfig fs b = .error "Simulation program (kernel) invalid") ∧
    (validate_sim_config fs b.sim_config = true →
     validate_overlay fs b.overlay_path = true →
     validate_sim_img fs b.sim_img = true →
     validate_sim_prog fs b.sim_prog = true →
     validate_log_dir fs b.log_dir = false →
       mkFireSlurmConfig fs b = .error "Log directory is invalid") ∧
    (mkRunConfig c = .ok c ↔ validate_run_name c.run_name = true) ∧
    (mkBatchConfig c = .ok c ↔ is_interactive c = false) := by
  refine ⟨?_, ?_, ?_, ?_, ?_, ?_, ?_, ?_⟩
  · unfold mkFireSlurmConfig
    split_ifs with h1 h2 h3 h4 h5 <;> simp_all
  · intro h1
    unfold mkFireSlurmConfig
    simp [h1]
  · intro h1 h2
    unfold mkFireSlurmConfig
    simp [h1, h2]
  · intro h1 h2 h3
    unfold mkFireSlurmConfig
    simp [h1, h2, h3]
  · intro h1 h2 h3 h4
    unfold mkFireSlurmConfig
    simp [h1, h2, h3, h4]
  · intro h1 h2 h3 h4 h5
    unfold mkFireSlurmConfig
    simp [h1, h2, h3, h4, h5]
  · unfold mkRunConfig
    split_ifs with h <;> simp_all
  · unfold mkBatchConfig
    split_ifs with h <;> simp_all

/-- A stat view holding only a valid simulation-config hierarchy, so the
overlay directory is the first violated field of the concrete base
fields. -/
def scOnlyFS : FS :=
  ⟨[("/sc", ⟨true, false, true, false, false⟩),
    ("/sc/xilinx_vcu118", ⟨true, false, true, false, false⟩),
    ("/sc/FireSim-xilinx_vcu118", ⟨false, true, true, false, true⟩),
    ("/sc/xilinx_vcu118/firesim.bit", ⟨false, true, true, false, false⟩)]⟩

/-- C3 witness: at a concrete input with a valid run name, RunConfig
construction succeeds, and at a stat view whose first violated field is
the overlay directory, base construction fails with that field's
message. -/
theorem construction_validation_characterization_witness :
    mkRunConfig jobFields = .ok jobFields ∧
    mkFireSlurmConfig scOnlyFS baseFields = .error "Overlay directory invalid" :=
  ⟨(construction_validation_characterization FS.empty baseFields
      jobFields).2.2.2.2.2.2.1.mpr (by decide),
   (construction_validation_characterization scOnlyFS baseFields
      jobFields).2.2.1 (by decide) (by decide)⟩

/-- C3 counterexample: over the empty filesystem every path predicate of
the concrete fields is false and base construction fails accordingly, yet
RunConfig and BatchConfig construction both succeed, because the
specializations' post-init checks replace the base's path validation. -/
theorem subclass_construction_skips_path_validation :
    validate_sim_config FS.empty jobFields.base.sim_config = false ∧
    validate_overlay FS.empty jobFields.base.overlay_path = false ∧
    validate_sim_img FS.empty jobFields.base.sim_img = false ∧
    validate_sim_prog FS.empty jobFields.base.sim_prog = false ∧
    validate_log_dir FS.empty jobFields.base.log_dir = false ∧
    mkFireSlurmConfig FS.empty baseFields = .error "Simulator config directory invalid" ∧
    mkRunConfig jobFields = .ok jobFields ∧
    mkBatchConfig jobFields = .ok jobFields := by
  exact ⟨by decide, by decide, by decide, by decide, by decide, rfl, rfl, rfl⟩

/-- C4 (amended): for every RunConfig (hence with a valid run name) the
conversion to BatchConfig succeeds exactly when the command is present and
non-empty, and the round trip returns the identical field set; the reverse
conversion BatchConfig to RunConfig re-runs only the run-name assert, so it
succeeds exactly when the run name is valid, which holds for every
BatchConfig obtained from a RunConfig but can fail for a directly
constructed BatchConfig. -/
theorem config_conversion_roundtrip (c : SlurmJobFields)
    (hname : validate_run_name c.run_name = true) :
    ((c.cmd ≠ none ∧ c.cmd ≠ some "") →
       from_run_config c = .ok c ∧ from_batch_config c = .ok c) ∧
    (from_run_config c = .error "must provide a cmd!" ↔
       (c.cmd = none ∨ c.cmd = some "")) ∧
    (∀ d : SlurmJobFields,
       from_batch_config d = .ok d ↔ validate_run_name d.run_name = true) := by
  refine ⟨?_, ?_, ?_⟩
  · rintro ⟨h1, h2⟩
    unfold from_run_config mkBatchConfig is_interactive from_batch_config mkRunConfig
    rcases hc : c.cmd with _ | s
    · exact absurd hc h1
    · have hs : ¬ s = "" := fun h => h2 (by rw [hc, h])
      simp [hc, hs, hname]
  · unfold from_run_config mkBatchConfig is_interactive
    rcases hc : c.cmd with _ | s
    · simp
    · by_cases hs : s = "" <;> simp [hs]
  · intro d
    unfold from_batch_config mkRunConfig
    split_ifs with h <;> simp_all

/-- C4 witness: the round trip at the concrete job fields returns the
identical field set. -/
theorem config_conversion_roundtrip_witness :
    from_run_config jobFields = .ok jobFields ∧
    from_batch_config jobFields = .ok jobFields :=
  (config_conversion_roundtrip jobFields rfl).1 ⟨by decide, by decide⟩

/-- C4 counterexample: a BatchConfig with an empty run name and a
non-empty command constructs successfully, and converting it to a
RunConfig fails on the run-name assert, so the reverse conversion does not
always succeed. -/
theorem from_batch_config_fails_on_invalid_run_name :
    mkBatchConfig badNameBatchFields = .ok badNameBatchFields ∧
    from_batch_config badNameBatchFields = .error "Run name is invalid" :=
  ⟨rfl, rfl⟩

/-- C5: BatchConfig construction fails exactly when the command is absent
or exactly empty, succeeds for every other command, and a whitespace-only
command counts as non-empty and is accepted. -/
theorem batch_config_command_invariant (c : SlurmJobFields) :
    (mkBatchConfig c = .ok c ↔ ¬(c.cmd = none ∨ c.cmd = some "")) ∧
    (c.cmd = some " " → mkBatchConfig c = .ok c) := by
  unfold mkBatchConfig is_interactive
  rcases hc : c.cmd with _ | s
  · simp
  · by_cases hs : s = "" <;> simp [hs]

/-- C5 witness: the whitespace-only command is accepted at a concrete
input. -/
theorem batch_config_command_invariant_witness :
    mkBatchConfig { jobFields with cmd := some " " } =
      .ok { jobFields with cmd := some " " } :=
  (batch_config_command_invariant { jobFields with cmd := some " " }).2 rfl

/-! ## Claims about the job submission protocol -/

/-- C6: with dry-run set the submission command is still executed — the
single executed command of the trace — with the scheduler-native test-only
flag appended, job-id extraction is suppressed so no unparsable-id error is
possible for any stdout, and a zero exit returns the all-default JobInfo
with the sentinel id. -/
theorem submit_dry_run_behaviour (c : SlurmJobFields) (jf : String)
    (out : SbatchOutcome) :
    "--test-only" ∈ build_sbatch_cmd c true jf ∧
    (submit_slurm_job c jf true out).1 = [ExecEv.exec (build_sbatch_cmd c true jf)] ∧
    (submit_slurm_job c jf true out).2 ≠ .error .unparsableJobId ∧
    (out.exitCode = 0 →
      (submit_slurm_job c jf true out).2 =
        .ok { slurm_job_id := -1, run_id := DEFAULT_FIRESLURM_ID }) := by
  refine ⟨?_, ?_, ?_, ?_⟩
  · unfold build_sbatch_cmd
    rcases hv : verbose c.base <;> simp [hv]
  · unfold submit_slurm_job
    by_cases he : out.exitCode = 0 <;> simp [he]
  · unfold submit_slurm_job
    by_cases he : out.exitCode = 0 <;> simp [he]
  · intro he
    unfold submit_slurm_job
    simp [he]

/-- C6 witness: at a concrete configuration and a zero-exit stdout without
the submission pattern, the dry run returns the default JobInfo. -/
theorem submit_dry_run_behaviour_witness :
    (submit_slurm_job jobFields "job.sh" true outErrText).2 =
      .ok { slurm_job_id := -1, run_id := DEFAULT_FIRESLURM_ID } :=
  (submit_dry_run_behaviour jobFields "job.sh" outErrText).2.2.2 rfl

/-- C7: a successful non-dry-run submission parses the fixed pattern,
extracting the digits as the job id on the example stdout, and any stdout
not matching the pattern fails with the unparsable-id error instead of
being silently ignored. -/
theorem submit_job_id_parsing (c : SlurmJobFields) (jf : String)
    (out : SbatchOutcome) (hexit : out.exitCode = 0) :
    matchSubmittedBatchJob "Submitted batch job 4821\n" = some 4821 ∧
    matchSubmittedBatchJob "sbatch: error: Batch job submission failed" = none ∧
    (∀ n, matchSubmittedBatchJob out.stdout = some n →
      (submit_slurm_job c jf false out).2 =
        .ok { slurm_job_id := (n : Int), run_id := c.base._run_id }) ∧
    (matchSubmittedBatchJob out.stdout = none →
      (submit_slurm_job c jf false out).2 = .error .unparsableJobId) := by
  refine ⟨by decide, by decide, ?_, ?_⟩
  · intro n hn
    unfold submit_slurm_job
    simp [hexit, hn]
  · intro hn
    unfold submit_slurm_job
    simp [hexit, hn]

/-- C7 witness: the example stdout yields job id 4821 paired with the
configuration's run id at a concrete input. -/
theorem submit_job_id_parsing_witness :
    (submit_slurm_job jobFields "job.sh" false out4821).2 =
      .ok { slurm_job_id := 4821, run_id := 7 } := by
  have h := (submit_job_id_parsing jobFields "job.sh" out4821 rfl).2.2.1 4821 (by decide)
  exact h

/-- C10: with dry-run set, a zero-exit submission returns a JobInfo whose
run id is the NIL default and hence never the configuration's own id when
that id is not NIL, while only the non-dry-run success path copies the
configuration's run id into the returned JobInfo. -/
theorem submit_dry_run_identity (c : SlurmJobFields) (jf : String)
    (out : SbatchOutcome) (hexit : out.exitCode = 0) :
    (submit_slurm_job c jf true out).2 =
      .ok { slurm_job_id := -1, run_id := DEFAULT_FIRESLURM_ID } ∧
    (c.base._run_id ≠ DEFAULT_FIRESLURM_ID →
      ∀ j, (submit_slurm_job c jf true out).2 = .ok j →
        j.run_id ≠ c.base._run_id) ∧
    (∀ n, matchSubmittedBatchJob out.stdout = some n →
      (submit_slurm_job c jf false out).2 =
        .ok { slurm_job_id := (n : Int), run_id := c.base._run_id }) := by
  refine ⟨?_, ?_, ?_⟩
  · unfold submit_slurm_job
    simp [hexit]
  · intro hne j hj
    unfold submit_slurm_job at hj
    simp [hexit] at hj
    intro hr
    apply hne
    rw [← hr, ← hj]
  · intro n hn
    unfold submit_slurm_job
    simp [hexit, hn]

/-- C10 witness: at a concrete configuration whose run id is 7, the
dry-run result carries the NIL default run id. -/
theorem submit_dry_run_identity_witness :
    (submit_slurm_job jobFields "job.sh" true outErrText).2 =
      .ok { slurm_job_id := -1, run_id := DEFAULT_FIRESLURM_ID } :=
  (submit_dry_run_identity jobFields "job.sh" outErrText rfl).1

/-! ## Claims about the critical section and the overlay -/

/-- C9: on every exit path of the overlay operation the trace contains the
mount of the simulation image and ends with the unmount of the well-known
mount point, and a copy failure is propagated as the returned error. -/
theorem overlay_disk_image_scoped_mount (w : RunWorld) (op si : String) :
    REv.mount si "mountpoint" ∈ (overlay_disk_image w op si).1 ∧
    (overlay_disk_image w op si).1.getLast? = some (.unmount "mountpoint") ∧
    ((overlay_disk_image w op si).2 = .error .copyFailed ↔ w.copyFails = true) := by
  unfold overlay_disk_image
  rcases hc : w.copyFails
  · exact ⟨by simp [hc], by simp [hc], by simp [hc]⟩
  · exact ⟨by simp [hc], by simp [hc], by simp [hc]⟩

/-- C2 (amended): in the packaged infrasetup the interrupt mask installed
on entry is removed on every exit path — the trace begins with the mask
event and ends with the unmask event on every branch — and an error of
flashing or overlaying is still returned to the caller. -/
theorem infrasetup_unmask_on_every_exit (w : RunWorld) (sc op si : String) :
    (infrasetup w sc op si).1.head? = some .maskSigint ∧
    (infrasetup w sc op si).1.getLast? = some .unmaskSigint ∧
    (∀ e : RErr, (infrasetup w sc op si).2 = .error e ↔
      ((flash_fpga w sc).2 = .error e ∨
       ((flash_fpga w sc).2 = .ok () ∧ (overlay_disk_image w op si).2 = .error e))) := by
  unfold infrasetup
  rcases hf : flash_fpga w sc with ⟨fev, fres⟩
  rcases fres with ef | uf
  · refine ⟨rfl, getLast?_append_last _ _, ?_⟩
    intro e
    simp
  · rcases ho : overlay_disk_image w op si with ⟨oev, ores⟩
    rcases ores with eo | uo
    · refine ⟨rfl, getLast?_append_last _ _, ?_⟩
      intro e
      simp
    · refine ⟨rfl, getLast?_append_pair _ _ _, ?_⟩
      intro e
      simp

/-- Concrete world in which the recursive overlay copy raises. -/
def cexCopyFailWorld : RunWorld :=
  { fs := FS.empty, dry_run := false, flashExit := 0, pcieExit := 0,
    copyFails := true }

/-- C9 witness: at the concrete world with a failing copy, the trace still
ends with the unmount. -/
theorem overlay_disk_image_scoped_mount_witness :
    (overlay_disk_image cexCopyFailWorld "/ov" "/img").1.getLast? =
      some (.unmount "mountpoint") :=
  (overlay_disk_image_scoped_mount cexCopyFailWorld "/ov" "/img").2.1

/-- Concrete world for the counterexamples: the flash tool exits non-zero
on a real (non-dry) run. -/
def cexRunWorld : RunWorld :=
  { fs := FS.empty, dry_run := false, flashExit := 1, pcieExit := 0,
    copyFails := false }

/-- C2 witness: at the concrete world with a failing flash, the packaged
infrasetup trace still ends with the unmask. -/
theorem infrasetup_unmask_on_every_exit_witness :
    (infrasetup cexRunWorld "/sc" "/ov" "/img").1.getLast? =
      some .unmaskSigint :=
  (infrasetup_unmask_on_every_exit cexRunWorld "/sc" "/ov" "/img").2.1

/-- C2 counterexample: in the standalone run.main snapshot the unmask is a
plain statement after the critical section, so a flashing failure
propagates while the unmask event never appears in the trace. -/
theorem main_critical_section_skips_unmask :
    (main_critical_section cexRunWorld "/sc" "/ov" "/img").2 =
      .error (.externalToolFailed 1) ∧
    REv.unmaskSigint ∉ (main_critical_section cexRunWorld "/sc" "/ov" "/img").1 := by
  exact ⟨rfl, by decide⟩

/-! ## Claims about Launching, Streaming and Restoring -/

/-- C1 (amended): the interrupt key is restored to its captured value on
every exit of run_simulation; on a zero exit the library path is also
restored — in the mirror order of mutation, the library path before the
key — and the whole state returns to its entry value; on a non-zero exit
the SimulationFailed error is surfaced with the interrupt key restored but
with the library-path restoration skipped, the final library path still
carrying the prepended simulation-config entry. -/
theorem run_simulation_restoring (sim_config : String) (simExit : Int)
    (st : ProcState) :
    ((run_simulation sim_config simExit st).1.sigintKey = st.sigintKey) ∧
    (simExit = 0 →
      (run_simulation sim_config simExit st).1 = st ∧
      (run_simulation sim_config simExit st).2.2 = .ok () ∧
      (run_simulation sim_config simExit st).2.1 =
        [.remapKey, .extendLd, .simWait, .restoreLd, .restoreKey]) ∧
    (simExit ≠ 0 →
      (run_simulation sim_config simExit st).2.2 =
        .error (.simulationFailed simExit) ∧
      (run_simulation sim_config simExit st).1.ldLibraryPath =
        sim_config ++ ":" ++ st.ldLibraryPath ∧
      (run_simulation sim_config simExit st).2.1 =
        [.remapKey, .extendLd, .simWait, .restoreKey]) := by
  obtain ⟨k, l⟩ := st
  by_cases h : simExit = 0
  · subst h
    exact ⟨rfl, fun _ => ⟨rfl, rfl, rfl⟩, fun hne => absurd rfl hne⟩
  · have hic : String.intercalate ":" [sim_config] = sim_config := rfl
    refine ⟨?_, fun he => absurd he h, fun _ => ⟨?_, ?_, ?_⟩⟩ <;>
      simp [run_simulation, extend_path, h, hic]

/-- Concrete entry state for the launching-phase claims. -/
def st0 : ProcState := { sigintKey := "^C", ldLibraryPath := "/usr/lib" }

/-- C1 counterexample: at a concrete run whose simulation exits with code
1, the error is surfaced while the library path still carries the
prepended entry — the restore-library-path event is absent from the trace
and the final library path differs from the captured pre-launch value. -/
theorem run_simulation_error_skips_ld_restore :
    (run_simulation "/sc" 1 st0).2.2 = .error (.simulationFailed 1) ∧
    (run_simulation "/sc" 1 st0).1.sigintKey = st0.sigintKey ∧
    (run_simulation "/sc" 1 st0).1.ldLibraryPath = "/sc:/usr/lib" ∧
    st0.ldLibraryPath = "/usr/lib" ∧
    ("/sc:/usr/lib" : String) ≠ "/usr/lib" ∧
    REv.restoreLd ∉ (run_simulation "/sc" 1 st0).2.1 := by
  exact ⟨rfl, rfl, rfl, rfl, by decide, by decide⟩

/-- C1 witness: the amended theorem applied at concrete exits 0 and 2. -/
theorem run_simulation_restoring_witness :
    (run_simulation "/sc" 0 st0).1 = st0 ∧
    (run_simulation "/sc" 2 st0).2.2 = .error (.simulationFailed 2) :=
  ⟨((run_simulation_restoring "/sc" 0 st0).2.1 rfl).1,
   ((run_simulation_restoring "/sc" 2 st0).2.2 (by decide)).1⟩

/-! ## Claims about log rotation -/

/-- C8 counterexample: one rotation from the empty log root creates the
timestamped directory but returns the path of the latest alias, which is
not the new directory's path. -/
theorem update_log_files_returns_latest_alias :
    (update_log_files LogFS.emptyFS "root" "x" "T1").2 = .ok "root/latest" ∧
    (update_log_files LogFS.emptyFS "root" "x" "T1").1 "root/xT1" = some .dir ∧
    pjoin "root" ("x" ++ "T1") = "root/xT1" ∧
    ("root/latest" : String) ≠ "root/xT1" := by
  exact ⟨rfl, rfl, rfl, by decide⟩

/-- C8 (amended): rotation creates the new timestamped directory and
returns the path of the latest alias rather than the new directory's own
path; after two sequential rotations with the same base name and distinct
composed directory names, the alias is a link to the second directory and
the first directory still exists untouched. -/
theorem update_log_files_rotation (root nm t1 t2 : String)
    (ht : nm ++ t1 ≠ nm ++ t2)
    (hl1 : nm ++ t1 ≠ "latest")
    (hl2 : nm ++ t2 ≠ "latest") :
    (update_log_files LogFS.emptyFS root nm t1).2 = .ok (pjoin root "latest") ∧
    (update_log_files (update_log_files LogFS.emptyFS root nm t1).1 root nm t2).2 =
      .ok (pjoin root "latest") ∧
    (update_log_files (update_log_files LogFS.emptyFS root nm t1).1 root nm t2).1
      (pjoin root "latest") = some (.symlink (pjoin root (nm ++ t2))) ∧
    (update_log_files (update_log_files LogFS.emptyFS root nm t1).1 root nm t2).1
      (pjoin root (nm ++ t1)) = some .dir := by
  have hA : ¬(pjoin root (nm ++ t1) = root) := fun h => root_ne_pjoin root _ h.symm
  have hB : ¬(pjoin root (nm ++ t2) = root) := fun h => root_ne_pjoin root _ h.symm
  have hC : ¬(root = pjoin root "latest") := root_ne_pjoin root _
  have hD : ¬(root = pjoin root (nm ++ t1)) := root_ne_pjoin root _
  have hE : ¬(pjoin root (nm ++ t2) = pjoin root "latest") := pjoin_right_inj root hl2
  have hF : ¬(pjoin root (nm ++ t2) = pjoin root (nm ++ t1)) :=
    pjoin_right_inj root (Ne.symm ht)
  have hG : ¬(pjoin root (nm ++ t1) = pjoin root "latest") := pjoin_right_inj root hl1
  have hH : ¬(pjoin root (nm ++ t1) = pjoin root (nm ++ t2)) := pjoin_right_inj root ht
  refine ⟨?_, ?_, ?_, ?_⟩ <;>
    simp [update_log_files, LogFS.emptyFS, LogFS.set, LogFS.erase,
          hA, hB, hC, hD, hE, hF, hG, hH]

/-- C8 witness: the amended theorem applied at the concrete names, where
the alias links to the second rotated directory. -/
theorem update_log_files_rotation_witness :
    (update_log_files (update_log_files LogFS.emptyFS "root" "x" "T1").1
        "root" "x" "T2").1 (pjoin "root" "latest") =
      some (.symlink (pjoin "root" ("x" ++ "T2"))) :=
  (update_log_files_rotation "root" "x" "T1" "T2"
    (by decide) (by decide) (by decide)).2.2.1

end Fireslurm
